import Mathlib

/-!
Verification development for the PoolSense leak-detection system
(sources: `ms5837.py`, `poolsense.py`).

Modelling conventions:
* Python integers are `ℤ`; Python `//` is `Int.fdiv` (floor division),
  which is what Python's `//` computes on negative operands as well.
* Python floats are modelled as exact rationals `ℚ` (the real-valued
  model of the arithmetic; IEEE rounding is not modelled).
* Python `round(x, n)` is modelled by `pyRound n x`, round-half-to-even
  at `n` decimal digits, Python's documented rounding mode.
* Mutable objects become immutable records with explicit state passing;
  the module-level globals of `poolsense.py` (`session` and the set of
  scheduled `switch_to_testing` threads) become the `World` record.
-/

/-- Floor of a rational, computed from its reduced representation
(the denominator of a `Rat` is positive, so `Int.fdiv num den` is the
mathematical floor). -/
def qfloor (x : ℚ) : ℤ := Int.fdiv x.num x.den

/-- Round a rational to the nearest integer, ties to even
(the rounding Python's built-in `round` uses). -/
def rint (x : ℚ) : ℤ :=
  let f := qfloor x
  let r := x - (f : ℚ)
  if r < 1/2 then f
  else if 1/2 < r then f + 1
  else if f % 2 = 0 then f else f + 1

/-- Model of Python `round(x, n)` on the rational model of floats:
round to `n` decimal digits, ties to even. -/
def pyRound (n : ℕ) (x : ℚ) : ℚ := ((rint (x * 10 ^ n) : ℚ)) / 10 ^ n

/-! ## Compensation engine (`ms5837.py`, `MS5837._calculate`) -/

/-- The seven PROM calibration coefficients `C[1..6]` of `MS5837.C`
(index 0 of the Python list is the CRC word, unused by `_calculate`). -/
structure Calib where
  c1 : ℤ
  c2 : ℤ
  c3 : ℤ
  c4 : ℤ
  c5 : ℤ
  c6 : ℤ
deriving DecidableEq, Repr

/-- Result of the compensation pipeline: `self.pressure_mbar` and
`self.temperature_c` after `MS5837._calculate` runs. -/
structure CompResult where
  pressure_mbar : ℚ
  temperature_c : ℚ
deriving DecidableEq, Repr

/-- Shallow embedding of `MS5837._calculate` (ms5837.py lines 77-104).
Python `//` is floor division, embedded as `Int.fdiv`.  The Python code
computes `temperature_c` in two steps (first-order value at line 86,
then `-= T2 / 100.0` at line 104); both steps are kept. -/
def calculate (D1 D2 : ℤ) (C : Calib) : CompResult :=
  let dT := D2 - C.c5 * 256
  let SENS := C.c1 * 65536 + Int.fdiv (C.c3 * dT) 128
  let OFF := C.c2 * 131072 + Int.fdiv (C.c4 * dT) 64
  let temp1 : ℚ := ((2000 + Int.fdiv (dT * C.c6) 8388608 : ℤ) : ℚ) / 100
  let Ti := 2000 + Int.fdiv (dT * C.c6) 8388608
  let T2 := if Ti < 2000 then Int.fdiv (11 * (dT * dT)) 34359738368 else 0
  let OFF2 := if Ti < 2000 then Int.fdiv (31 * (Ti - 2000) ^ 2) 8 else 0
  let SENS2 := if Ti < 2000 then Int.fdiv (63 * (Ti - 2000) ^ 2) 32 else 0
  let OFF' := OFF - OFF2
  let SENS' := SENS - SENS2
  { pressure_mbar := ((Int.fdiv (D1 * SENS') 2097152 - OFF' : ℤ) : ℚ) / 32768 / 100
    temperature_c := temp1 - (T2 : ℚ) / 100 }

/-- The compensation algorithm exactly as the specification words it
(spec §4.1 steps 1-8): every intermediate quotient is a floor, the
temperature is the single quotient `(Ti - T2) / 100`, and the
second-order terms apply exactly when `Ti < 2000`.  Returns
`(pressureMbar, temperatureC)`. -/
def compensateSpec (D1 D2 : ℤ) (C : Calib) : ℚ × ℚ :=
  let dT := D2 - C.c5 * 256
  let SENS := C.c1 * 65536 + Int.fdiv (C.c3 * dT) 128
  let OFF := C.c2 * 131072 + Int.fdiv (C.c4 * dT) 64
  let Ti := 2000 + Int.fdiv (dT * C.c6) 8388608
  let T2 := if Ti < 2000 then Int.fdiv (11 * (dT * dT)) 34359738368 else 0
  let OFF2 := if Ti < 2000 then Int.fdiv (31 * (Ti - 2000) ^ 2) 8 else 0
  let SENS2 := if Ti < 2000 then Int.fdiv (63 * (Ti - 2000) ^ 2) 32 else 0
  let OFF' := OFF - OFF2
  let SENS' := SENS - SENS2
  (((Int.fdiv (D1 * SENS') 2097152 - OFF' : ℤ) : ℚ) / 32768 / 100,
   ((Ti - T2 : ℤ) : ℚ) / 100)

/-- Variant of `calculate` in which every intermediate integer division
truncates toward zero (`Int.tdiv`), as claim C2 asserts of the code.
Used to compare rounding modes against the floor-division code. -/
def calculateTdiv (D1 D2 : ℤ) (C : Calib) : CompResult :=
  let dT := D2 - C.c5 * 256
  let SENS := C.c1 * 65536 + Int.tdiv (C.c3 * dT) 128
  let OFF := C.c2 * 131072 + Int.tdiv (C.c4 * dT) 64
  let temp1 : ℚ := ((2000 + Int.tdiv (dT * C.c6) 8388608 : ℤ) : ℚ) / 100
  let Ti := 2000 + Int.tdiv (dT * C.c6) 8388608
  let T2 := if Ti < 2000 then Int.tdiv (11 * (dT * dT)) 34359738368 else 0
  let OFF2 := if Ti < 2000 then Int.tdiv (31 * (Ti - 2000) ^ 2) 8 else 0
  let SENS2 := if Ti < 2000 then Int.tdiv (63 * (Ti - 2000) ^ 2) 32 else 0
  let OFF' := OFF - OFF2
  let SENS' := SENS - SENS2
  { pressure_mbar := ((Int.tdiv (D1 * SENS') 2097152 - OFF' : ℤ) : ℚ) / 32768 / 100
    temperature_c := temp1 - (T2 : ℚ) / 100 }

/-- A 24-bit unsigned raw ADC value (`D1`, `D2`). -/
def UInt24Range (x : ℤ) : Prop := 0 ≤ x ∧ x < 16777216

instance (x : ℤ) : Decidable (UInt24Range x) := by
  unfold UInt24Range; infer_instance

/-- All calibration words are unsigned 16-bit values. -/
def CalibOK (C : Calib) : Prop :=
  0 ≤ C.c1 ∧ C.c1 < 65536 ∧ 0 ≤ C.c2 ∧ C.c2 < 65536 ∧
  0 ≤ C.c3 ∧ C.c3 < 65536 ∧ 0 ≤ C.c4 ∧ C.c4 < 65536 ∧
  0 ≤ C.c5 ∧ C.c5 < 65536 ∧ 0 ≤ C.c6 ∧ C.c6 < 65536

instance (C : Calib) : Decidable (CalibOK C) := by
  unfold CalibOK; infer_instance

/-! ## Depth conversion (`ms5837.py`, `MS5837.depth_mm`) -/

/-- `MS5837.DENSITY_FRESHWATER = 997.0`, the default `fluid_density`. -/
def DENSITY_FRESHWATER : ℚ := 997

/-- Shallow embedding of `MS5837.depth_mm` (ms5837.py lines 106-112):
`water_pressure_pa = (pressure_mbar - 1013.25) * 100.0`;
`depth_m = water_pressure_pa / (fluid_density * 9.80665)`; returned in
mm.  The decimal literals `1013.25` and `9.80665` are the exact
rationals `101325/100` and `980665/100000`. -/
def depth_mm (pressure_mbar fluid_density : ℚ) : ℚ :=
  (pressure_mbar - 101325/100) * 100 / (fluid_density * 980665/100000) * 1000

/-! ## Measurement session (`poolsense.py`, `TestSession`) -/

/-- One element of `TestSession.readings`: the dict
`{"t": ..., "p": ..., "temp": ..., "d": ...}` built by `add_reading`. -/
structure Sample where
  t : ℚ
  p : ℚ
  temp : ℚ
  d : ℚ
deriving DecidableEq, Repr

instance : Inhabited Sample := ⟨⟨0, 0, 0, 0⟩⟩

/-- `TestSession.status`: one of `"idle"`, `"baseline"`, `"testing"`,
`"complete"`. -/
inductive Status where
  | idle
  | baseline
  | testing
  | complete
deriving DecidableEq, Repr

/-- The `status` field of the verdict dict built by
`TestSession._get_verdict` (`"PASS"`, `"BORDERLINE"`, `"LEAK"`,
`"MAJOR LEAK"`).  The accompanying human-readable message strings are
not modelled. -/
inductive VerdictStatus where
  | PASS
  | BORDERLINE
  | LEAK
  | MAJOR_LEAK
deriving DecidableEq, Repr

/-- The dict returned by `TestSession.calculate_leak_rate`
(poolsense.py lines 109-118), fields in source order. -/
structure LeakResult where
  raw_loss_mm : ℚ
  evap_correction_mm : ℚ
  net_loss_mm : ℚ
  leak_rate_mm_hr : ℚ
  leak_rate_gal_day : ℚ
  elapsed_hours : ℚ
  avg_temp_c : ℚ
  verdict : VerdictStatus
deriving DecidableEq, Repr

/-- `CONFIG["LEAK_THRESHOLD_MM_HR"] = 0.5`. -/
def LEAK_THRESHOLD_MM_HR : ℚ := 5/10

/-- `CONFIG["BASELINE_DURATION_MIN"] = 15` (minutes). -/
def BASELINE_DURATION_MIN : ℚ := 15

/-- `statistics.mean` on a list of (rational-modelled) floats.
Empty input never occurs at the call sites (guarded by the length
check); the junk value `0/0 = 0` is irrelevant there. -/
def mean (l : List ℚ) : ℚ := l.sum / l.length

/-- Shallow embedding of `TestSession._estimate_evaporation`
(poolsense.py lines 120-128): `base_rate = 0.05 + (t - 15) * 0.008`,
floored at `0.05`. -/
def estimate_evaporation (water_temp_c : ℚ) : ℚ :=
  max (5/100) (5/100 + (water_temp_c - 15) * (8/1000))

/-- Shallow embedding of `TestSession._get_verdict` (poolsense.py
lines 130-138); only the status of the returned dict is modelled. -/
def get_verdict (rate_mm_hr : ℚ) : VerdictStatus :=
  if rate_mm_hr < 1/10 then .PASS
  else if rate_mm_hr < LEAK_THRESHOLD_MM_HR then .BORDERLINE
  else if rate_mm_hr < 2 then .LEAK
  else .MAJOR_LEAK

/-- `list(self.readings)[0]["t"]` (guarded call sites only use it on
lists of length ≥ 60). -/
def firstT (rs : List Sample) : ℚ := rs.headI.t

/-- `list(self.readings)[-1]["t"]`. -/
def lastT (rs : List Sample) : ℚ := rs.getLastI.t

/-- `elapsed_hrs = (time_end - time_start) / 3600.0`
(poolsense.py line 84). -/
def elapsed_hours (rs : List Sample) : ℚ := (lastT rs - firstT rs) / 3600

/-- Shallow embedding of `TestSession.calculate_leak_rate`
(poolsense.py lines 60-118).  Python's `list[:30]` is `List.take 30`,
`list[-30:]` is `List.drop (length - 30)`; both agree with the slice
semantics for every length.  `round(x, n)` is `pyRound n x`, and the
decimal literals `0.1` and `3.785` are `1/10` and `3785/1000`.  The
verdict is computed from the unrounded rate, as in the source. -/
def calculate_leak_rate (readings : List Sample) : Option LeakResult :=
  if readings.length < 60 then none
  else
    let window : ℕ := 30
    let start_depth := mean ((readings.take window).map Sample.d)
    let end_depth := mean ((readings.drop (readings.length - window)).map Sample.d)
    let elapsed_hrs := elapsed_hours readings
    if elapsed_hrs < 1/10 then none
    else
      let raw_loss_mm := start_depth - end_depth
      let avg_temp := mean (readings.map Sample.temp)
      let evap_rate := estimate_evaporation avg_temp
      let expected_evap_mm := evap_rate * elapsed_hrs
      let net_loss_mm := raw_loss_mm - expected_evap_mm
      let leak_rate_mm_hr := net_loss_mm / elapsed_hrs
      let liters_per_mm : ℚ := 60
      let gal_per_day := (leak_rate_mm_hr * 24 * liters_per_mm) / (3785/1000)
      some
        { raw_loss_mm := pyRound 2 raw_loss_mm
          evap_correction_mm := pyRound 2 expected_evap_mm
          net_loss_mm := pyRound 2 net_loss_mm
          leak_rate_mm_hr := pyRound 3 leak_rate_mm_hr
          leak_rate_gal_day := pyRound 1 gal_per_day
          elapsed_hours := pyRound 2 elapsed_hrs
          avg_temp_c := pyRound 1 avg_temp
          verdict := get_verdict leak_rate_mm_hr }

/-- `collections.deque(maxlen=86400)` append: when the deque is full the
oldest element is evicted from the left. -/
def pushBounded (l : List Sample) (x : Sample) : List Sample :=
  let l2 := l ++ [x]
  if 86400 < l2.length then l2.drop (l2.length - 86400) else l2

/-- The mutable state of a `TestSession` object (poolsense.py lines
35-41).  `baseline_pressure`/`baseline_temp` are assigned `None` in
`__init__` and never written again, so they are omitted. -/
structure Session where
  start_time : Option ℚ
  readings : List Sample
  status : Status
  result : Option LeakResult
deriving DecidableEq, Repr

/-- `TestSession.__init__`: idle, no start time, empty deque, no
result. -/
def TestSession.new : Session :=
  { start_time := none, readings := [], status := .idle, result := none }

/-- Shallow embedding of `TestSession.add_reading` (poolsense.py lines
43-49): appends the rounded reading to the deque unconditionally — the
method itself contains no state check. -/
def add_reading (s : Session) (timestamp pressure_mbar temp_c depth_mm : ℚ) :
    Session :=
  { s with readings := pushBounded s.readings ⟨timestamp, pyRound 3 pressure_mbar, pyRound 2 temp_c, pyRound 2 depth_mm⟩ }

/-! ## Globals and request handlers (`poolsense.py`, module level) -/

/-- The module-level mutable state of `poolsense.py`: the global
`session` plus the scheduled `switch_to_testing` timers.  Each scheduled
timer is represented only by its wall-clock fire deadline
(`start + BASELINE_DURATION_MIN * 60`): faithful to the source, the
closure passed to `threading.Thread` captures no session object — at
fire time its body reads whatever the global `session` then is. -/
structure World where
  session : Session
  timers : List ℚ
deriving DecidableEq, Repr

/-- Shallow embedding of `api_start` (poolsense.py lines 493-509):
unconditionally replaces the global session with a fresh one in
baseline state (there is no check of the previous session's status),
schedules a `switch_to_testing` timer for `now + 15 * 60` seconds, and
returns `ok = True`. -/
def api_start (w : World) (now : ℚ) : World × Bool :=
  ({ session :=
      { start_time := some now
        readings := []
        status := .baseline
        result := none }
     timers := w.timers ++ [now + BASELINE_DURATION_MIN * 60] }, true)

/-- Shallow embedding of `api_stop` (poolsense.py lines 511-530):
unconditionally sets the global session's status to complete and stores
`calculate_leak_rate()` as its result (no check of the previous
status), returning `ok = True`.  The JSON file write is I/O outside the
model. -/
def api_stop (w : World) : World × Bool :=
  ({ w with session :=
      { w.session with
        status := .complete
        result := calculate_leak_rate w.session.readings } }, true)

/-- Shallow embedding of the body of `switch_to_testing` (poolsense.py
lines 501-505) as it executes when its timer fires: it reads the
CURRENT global `session` (the closure holds no reference to the session
that existed when it was scheduled) and promotes it to testing if it is
in baseline. -/
def switch_to_testing (w : World) : World :=
  if w.session.status = .baseline then
    { w with session := { w.session with status := .testing } }
  else w

/-- The per-tick sensor-loop state of `sensor_thread` (poolsense.py
line 157): the `baseline_offset` local, `None` until the first
successful reading. -/
structure ProducerState where
  baseline_offset : Option ℚ
deriving DecidableEq, Repr

/-- Shallow embedding of one successful-read iteration of the
`sensor_thread` loop (poolsense.py lines 159-182): on a successful
`sensor.read()` yielding compensated `pressure` and `temp`, the tick
sets `baseline_offset` on the first reading only, computes
`depth = sensor.depth_mm()` (which uses the constant `1013.25` and the
sensor's default freshwater density — `baseline_offset` is never
consulted), and appends the reading only when the session status is
baseline or testing. -/
def producer_tick (ps : ProducerState) (s : Session)
    (timestamp pressure temp : ℚ) : ProducerState × Session :=
  let off :=
    match ps.baseline_offset with
    | none => pressure - 101325/100
    | some o => o
  let depth := depth_mm pressure DENSITY_FRESHWATER
  let s2 :=
    if s.status = .baseline ∨ s.status = .testing then
      add_reading s timestamp pressure temp depth
    else s
  (⟨some off⟩, s2)
-- C1 block candidate
/-- Datasheet-style example inputs used by concrete witnesses. -/
def exC : Calib := ⟨34982, 36352, 20328, 22354, 26646, 26146⟩

/-- C1: for every pair of 24-bit inputs and 16-bit calibration set, the
compensation code (`MS5837._calculate`) computes exactly the specified
fixed-point pipeline: `pressureMbar = ((D1*SENS/2097152) - OFF)/32768/100`
and `temperatureC = (Ti - T2)/100`, with `dT`, `SENS`, `OFF`, `Ti` and the
second-order terms (applied exactly when `Ti < 2000`) as in spec §4.1,
all intermediate quotients floored. -/
theorem compensation_matches_spec (D1 D2 : ℤ) (C : Calib)
    (h1 : UInt24Range D1) (h2 : UInt24Range D2) (h3 : CalibOK C) :
    calculate D1 D2 C =
      ⟨(compensateSpec D1 D2 C).1, (compensateSpec D1 D2 C).2⟩ := by
  simp only [calculate, compensateSpec, CompResult.mk.injEq]
  refine ⟨trivial, ?_⟩
  push_cast
  ring

/-- Witness for `compensation_matches_spec` at the MS5837 datasheet
example calibration with a low-temperature raw reading. -/
theorem compensation_matches_spec_witness :
    UInt24Range 4958179 ∧ UInt24Range 6815414 ∧ CalibOK exC ∧
      calculate 4958179 6815414 exC =
        ⟨(compensateSpec 4958179 6815414 exC).1,
         (compensateSpec 4958179 6815414 exC).2⟩ :=
  ⟨by decide, by decide, by decide,
   compensation_matches_spec 4958179 6815414 exC (by decide) (by decide)
     (by decide)⟩

/-- Floor division and truncating division agree when both operands are
non-negative. -/
theorem fdiv_eq_tdiv_of_nonneg (a b : ℤ) (ha : 0 ≤ a) (hb : 0 ≤ b) :
    Int.fdiv a b = Int.tdiv a b := by
  rw [Int.fdiv_eq_ediv _ hb, Int.tdiv_eq_ediv ha hb]

/-- C2 counterexample: at the in-range input `D1 = 1`, `D2 = 1`,
`C = (0, 0, 1, 0, 1, 0)` we get `dT = 1 - 256 = -255 < 0`, and the
code's floor divisions (`//`) do not round toward zero: the computed
result differs from the truncate-toward-zero variant
(`SENS = (-255) // 128 = -2` under floor but `-1` under truncation). -/
theorem rounding_is_not_truncation :
    UInt24Range 1 ∧ CalibOK ⟨0, 0, 1, 0, 1, 0⟩ ∧
      calculate 1 1 ⟨0, 0, 1, 0, 1, 0⟩ ≠ calculateTdiv 1 1 ⟨0, 0, 1, 0, 1, 0⟩ :=
  ⟨by decide, by decide, by with_unfolding_all decide⟩

/-- C2 amended: the intermediate divisions of `MS5837._calculate` are
Python floor divisions (round toward negative infinity).  Whenever
`dT = D2 - C[5]*256` is non-negative (and inputs are in their unsigned
ranges) every intermediate dividend is non-negative, so floor and
truncation toward zero coincide and the code agrees with the
truncating model; for negative `dT` they differ. -/
theorem floor_eq_truncation_of_nonneg_dT (D1 D2 : ℤ) (C : Calib)
    (hD1 : 0 ≤ D1) (hC : CalibOK C) (hdT : 0 ≤ D2 - C.c5 * 256) :
    calculate D1 D2 C = calculateTdiv D1 D2 C := by
  obtain ⟨h1, -, h2, -, h3, -, h4, -, h5, -, h6, -⟩ := hC
  have e1 : Int.fdiv (C.c3 * (D2 - C.c5 * 256)) 128 =
      Int.tdiv (C.c3 * (D2 - C.c5 * 256)) 128 :=
    fdiv_eq_tdiv_of_nonneg _ _ (mul_nonneg h3 hdT) (by norm_num)
  have e2 : Int.fdiv (C.c4 * (D2 - C.c5 * 256)) 64 =
      Int.tdiv (C.c4 * (D2 - C.c5 * 256)) 64 :=
    fdiv_eq_tdiv_of_nonneg _ _ (mul_nonneg h4 hdT) (by norm_num)
  have e3 : Int.fdiv ((D2 - C.c5 * 256) * C.c6) 8388608 =
      Int.tdiv ((D2 - C.c5 * 256) * C.c6) 8388608 :=
    fdiv_eq_tdiv_of_nonneg _ _ (mul_nonneg hdT h6) (by norm_num)
  have hTi : ¬(2000 + Int.tdiv ((D2 - C.c5 * 256) * C.c6) 8388608 < 2000) := by
    have : 0 ≤ Int.tdiv ((D2 - C.c5 * 256) * C.c6) 8388608 :=
      Int.tdiv_nonneg (mul_nonneg hdT h6) (by norm_num)
    omega
  have hSENS : 0 ≤ C.c1 * 65536 + Int.tdiv (C.c3 * (D2 - C.c5 * 256)) 128 :=
    add_nonneg (mul_nonneg h1 (by norm_num))
      (Int.tdiv_nonneg (mul_nonneg h3 hdT) (by norm_num))
  have e4 : Int.fdiv (D1 * (C.c1 * 65536 +
        Int.tdiv (C.c3 * (D2 - C.c5 * 256)) 128)) 2097152 =
      Int.tdiv (D1 * (C.c1 * 65536 +
        Int.tdiv (C.c3 * (D2 - C.c5 * 256)) 128)) 2097152 :=
    fdiv_eq_tdiv_of_nonneg _ _ (mul_nonneg hD1 hSENS) (by norm_num)
  simp only [calculate, calculateTdiv, e1, e2, e3, if_neg hTi, sub_zero, e4]

/-- Witness for `floor_eq_truncation_of_nonneg_dT` at the datasheet
calibration with a warm raw temperature (`dT = 178624 ≥ 0`). -/
theorem floor_eq_truncation_witness :
    (0 : ℤ) ≤ 4958179 ∧ CalibOK exC ∧ (0 : ℤ) ≤ 7000000 - exC.c5 * 256 ∧
      calculate 4958179 7000000 exC = calculateTdiv 4958179 7000000 exC :=
  ⟨by decide, by decide, by decide,
   floor_eq_truncation_of_nonneg_dT 4958179 7000000 exC (by decide)
     (by decide) (by decide)⟩

/-! ## Spec-side formulation of the leak analysis (spec §4.5 / claim C8) -/

/-- Spec: `avgTempC` = mean temperature across all samples. -/
def avgTempSpec (rs : List Sample) : ℚ := mean (rs.map Sample.temp)

/-- Spec: `rawLossMm` = mean depth of the first 30 samples minus mean
depth of the last 30. -/
def rawLossSpec (rs : List Sample) : ℚ :=
  mean ((rs.take 30).map Sample.d) - mean ((rs.drop (rs.length - 30)).map Sample.d)

/-- Spec: `evapRate = max(0.05, 0.05 + (avgTempC - 15) * 0.008)`. -/
def evapRateSpec (rs : List Sample) : ℚ :=
  max (5/100) (5/100 + (avgTempSpec rs - 15) * (8/1000))

/-- Spec: `evapCorrectionMm = evapRate * elapsedHours`. -/
def evapCorrSpec (rs : List Sample) : ℚ := evapRateSpec rs * elapsed_hours rs

/-- Spec: `netLossMm = rawLossMm - evapCorrectionMm`. -/
def netLossSpec (rs : List Sample) : ℚ := rawLossSpec rs - evapCorrSpec rs

/-- Spec: `leakRateMmHr = netLossMm / elapsedHours`. -/
def leakRateSpec (rs : List Sample) : ℚ := netLossSpec rs / elapsed_hours rs

/-- Spec classification thresholds (exclusive upper bounds):
`< 0.1 → Pass`, `< 0.5 → Borderline`, `< 2.0 → Leak`, else MajorLeak. -/
def classifySpec (rate : ℚ) : VerdictStatus :=
  if rate < 1/10 then .PASS
  else if rate < 5/10 then .BORDERLINE
  else if rate < 2 then .LEAK
  else .MAJOR_LEAK

/-- C7: the leak analyzer returns `None` exactly when fewer than 60
samples exist or the elapsed span between first and last sample is
below 0.1 hours (6 minutes); equivalently, it returns a verdict
exactly when both bounds are met. -/
theorem analyzer_insufficient_data (rs : List Sample) :
    calculate_leak_rate rs = none ↔
      rs.length < 60 ∨ elapsed_hours rs < 1/10 := by
  unfold calculate_leak_rate
  by_cases h1 : rs.length < 60
  · simp [h1]
  · by_cases h2 : elapsed_hours rs < 1/10
    · simp [h1, h2]
    · simp [h1, h2]

/-- Full functional description of `calculate_leak_rate` on accepted
input: when both data-sufficiency bounds hold, the analyzer returns the
record built from the spec-side quantities (rounded for storage as the
source does), with the verdict classified from the unrounded rate. -/
theorem calculate_leak_rate_accepted (rs : List Sample)
    (g1 : ¬rs.length < 60) (g2 : ¬elapsed_hours rs < 1/10) :
    calculate_leak_rate rs = some
      { raw_loss_mm := pyRound 2 (rawLossSpec rs)
        evap_correction_mm := pyRound 2 (evapCorrSpec rs)
        net_loss_mm := pyRound 2 (netLossSpec rs)
        leak_rate_mm_hr := pyRound 3 (leakRateSpec rs)
        leak_rate_gal_day := pyRound 1 (leakRateSpec rs * 24 * 60 / (3785/1000))
        elapsed_hours := pyRound 2 (elapsed_hours rs)
        avg_temp_c := pyRound 1 (avgTempSpec rs)
        verdict := get_verdict (leakRateSpec rs) } := by
  unfold calculate_leak_rate
  rw [if_neg g1, if_neg g2]
  simp only [rawLossSpec, evapCorrSpec, netLossSpec, leakRateSpec,
    evapRateSpec, avgTempSpec, estimate_evaporation]

/-- C8: on every accepted sample sequence the analyzer's verdict is
computed by the specified formulas: `evapRate = max(0.05,
0.05 + (avgTempC - 15)*0.008)` over the mean temperature,
`evapCorrectionMm = evapRate * elapsedHours`, `netLossMm = rawLossMm -
evapCorrectionMm` with `rawLossMm` the first-30/last-30 window
difference, `leakRateMmHr = netLossMm / elapsedHours`, and the
classification applies the exclusive thresholds 0.1 / 0.5 / 2.0 to the
(unrounded) rate.  The stored numeric fields are the same quantities
under the source's `round(... , n)` calls. -/
theorem analyzer_verdict_formula (rs : List Sample)
    (h1 : 60 ≤ rs.length) (h2 : 1/10 ≤ elapsed_hours rs) :
    ∃ v, calculate_leak_rate rs = some v ∧
      v.verdict = classifySpec (leakRateSpec rs) ∧
      v.leak_rate_mm_hr = pyRound 3 (leakRateSpec rs) ∧
      v.net_loss_mm = pyRound 2 (netLossSpec rs) ∧
      v.evap_correction_mm = pyRound 2 (evapCorrSpec rs) ∧
      v.raw_loss_mm = pyRound 2 (rawLossSpec rs) ∧
      v.avg_temp_c = pyRound 1 (avgTempSpec rs) ∧
      v.elapsed_hours = pyRound 2 (elapsed_hours rs) := by
  have g1 : ¬rs.length < 60 := by omega
  have g2 : ¬elapsed_hours rs < 1/10 := not_lt.mpr h2
  refine ⟨_, calculate_leak_rate_accepted rs g1 g2, ?_, rfl, rfl, rfl, rfl, rfl, rfl⟩
  simp only [get_verdict, classifySpec, LEAK_THRESHOLD_MM_HR]

/-- Sixty synthetic samples, one every 10 seconds (span 590 s ≥ 6 min),
constant depth and temperature. -/
def demoSamples : List Sample :=
  (List.range 60).map (fun i => ⟨(i : ℚ) * 10, 1100, 20, 500⟩)

/-- Witness for `analyzer_verdict_formula` on the synthetic
60-sample run. -/
theorem analyzer_verdict_formula_witness :
    60 ≤ demoSamples.length ∧ 1/10 ≤ elapsed_hours demoSamples ∧
      (∃ v, calculate_leak_rate demoSamples = some v ∧
        v.verdict = classifySpec (leakRateSpec demoSamples) ∧
        v.leak_rate_mm_hr = pyRound 3 (leakRateSpec demoSamples) ∧
        v.net_loss_mm = pyRound 2 (netLossSpec demoSamples) ∧
        v.evap_correction_mm = pyRound 2 (evapCorrSpec demoSamples) ∧
        v.raw_loss_mm = pyRound 2 (rawLossSpec demoSamples) ∧
        v.avg_temp_c = pyRound 1 (avgTempSpec demoSamples) ∧
        v.elapsed_hours = pyRound 2 (elapsed_hours demoSamples)) :=
  ⟨by decide, by with_unfolding_all decide,
   analyzer_verdict_formula demoSamples (by decide)
     (by with_unfolding_all decide)⟩

/-! ## Concrete worlds used by the state-machine theorems -/

/-- A world whose session is mid-test: in baseline state with one
collected reading and a pending promotion timer. -/
def baselineWorld : World :=
  { session :=
      { start_time := some 0
        readings := [⟨1, 1100, 20, 500⟩]
        status := .baseline
        result := none }
    timers := [900] }

/-- The freshly constructed world: `session = TestSession()` (idle),
no timers pending. -/
def idleWorld : World := { session := TestSession.new, timers := [] }

/-- C3: claim says `startTest` from Baseline fails with
InvalidTransition and leaves the session untouched; the code's
`api_start` has no state check at all — called on an active baseline
session it reports success and replaces the session wholesale,
discarding its readings. -/
theorem start_replaces_active_baseline_session :
    baselineWorld.session.status = .baseline ∧
      baselineWorld.session.readings ≠ [] ∧
      (api_start baselineWorld 100).2 = true ∧
      (api_start baselineWorld 100).1.session =
        { start_time := some 100
          readings := []
          status := .baseline
          result := none } := by
  with_unfolding_all decide

/-- C4: claim says `stopTest` from Idle fails with InvalidTransition;
the code's `api_stop` has no state check — called on an idle session it
reports success, marks the session complete and stores the (absent)
analyzer result. -/
theorem stop_accepts_idle_session :
    idleWorld.session.status = .idle ∧
      (api_stop idleWorld).2 = true ∧
      (api_stop idleWorld).1.session.status = .complete ∧
      (api_stop idleWorld).1.session.result = none := by
  with_unfolding_all decide

/-- Execution trace for C5: session A started at `t = 0` (its promotion
timer due at `900`), stopped, then session B started at `t = 100` (its
own timer due at `1000`). -/
def worldA : World := (api_start idleWorld 0).1

/-- The trace after `api_stop`: session A is complete; A's timer is
still pending. -/
def worldAStopped : World := (api_stop worldA).1

/-- The trace after the second `api_start`: session B, in baseline
since `t = 100`. -/
def worldB : World := (api_start worldAStopped 100).1

/-- C5: claim says a late-firing `promoteToTesting` scheduled for a
superseded session never alters the new session.  In the code the
`switch_to_testing` closure consults only the global `session`, so when
session A's timer (due at wall time 900, before B's own deadline 1000)
fires while B is still in its baseline phase, it promotes B — a session
it was not scheduled for — to testing. -/
theorem stale_timer_promotes_new_session :
    worldB.session.start_time = some 100 ∧
      worldB.session.status = .baseline ∧
      worldB.timers = [900, 1000] ∧
      (switch_to_testing worldB).session.status = .testing ∧
      (switch_to_testing worldB).session.start_time = some 100 := by
  refine ⟨?_, ?_, ?_, ?_, ?_⟩ <;>
    simp [worldB, worldAStopped, worldA, idleWorld, api_start, api_stop,
      switch_to_testing, TestSession.new, BASELINE_DURATION_MIN] <;>
    norm_num

/-- A bare baseline session with no readings yet, as seen by the very
first producer tick of the process. -/
def baselineSession : Session :=
  { start_time := some 0, readings := [], status := .baseline, result := none }

/-- C6: claim says every appended depth is computed against the
pressure of the process's first successful reading.  In the code
`sensor_thread` stores `baseline_offset = pressure - 1013.25` on the
first reading but never uses it: the appended depth comes from
`MS5837.depth_mm`, which always subtracts the constant `1013.25`.  On a
first reading of 1100 mbar the stored depth is
`depth_mm 1100 997 ≈ 887 mm`, whereas the claimed formula with
`referencePressureMbar = 1100` gives `0`. -/
theorem depth_ignores_first_reading_reference :
    (producer_tick ⟨none⟩ baselineSession 5 1100 20).1.baseline_offset =
        some (1100 - 101325/100) ∧
      (producer_tick ⟨none⟩ baselineSession 5 1100 20).2.readings =
        [⟨5, pyRound 3 1100, pyRound 2 20,
          pyRound 2 (depth_mm 1100 DENSITY_FRESHWATER)⟩] ∧
      depth_mm 1100 DENSITY_FRESHWATER ≠
        (1100 - 1100) * 100 / (DENSITY_FRESHWATER * 980665/100000) * 1000 := by
  refine ⟨?_, ?_, ?_⟩ <;>
    simp [producer_tick, baselineSession, add_reading, pushBounded,
      depth_mm, DENSITY_FRESHWATER] <;>
    norm_num

/-- The freshly constructed session (idle, no readings). -/
def idleSession : Session := TestSession.new

/-- C9 counterexample: `TestSession.add_reading` itself performs no
state check — invoked on an idle session it appends anyway, so the
operation-level no-op property the claim asserts is false. -/
theorem append_is_not_guarded_by_state :
    idleSession.status = .idle ∧ idleSession.readings = [] ∧
      (add_reading idleSession 0 1100 20 500).readings ≠ [] := by
  with_unfolding_all decide

/-- C9 amended: the state guard lives in the producer, not in the
operation.  `sensor_thread` appends only after checking
`session.status in ("baseline", "testing")`, so a producer tick leaves
the sample sequence of an idle or complete session unchanged, while
`add_reading` called directly appends from any state. -/
theorem producer_tick_skips_inactive_session (ps : ProducerState)
    (s : Session) (timestamp pressure temp : ℚ)
    (h1 : s.status ≠ .baseline) (h2 : s.status ≠ .testing) :
    (producer_tick ps s timestamp pressure temp).2 = s := by
  unfold producer_tick
  simp [h1, h2]

/-- Witness for `producer_tick_skips_inactive_session` on the idle
session. -/
theorem producer_tick_skips_inactive_session_witness :
    idleSession.status ≠ .baseline ∧ idleSession.status ≠ .testing ∧
      (producer_tick ⟨none⟩ idleSession 0 1100 20).2 = idleSession :=
  ⟨by decide, by decide,
   producer_tick_skips_inactive_session ⟨none⟩ idleSession 0 1100 20
     (by decide) (by decide)⟩

/-- Appending to the bounded deque always leaves the new element last
(ring-buffer eviction only drops from the front). -/
theorem pushBounded_getLast (l : List Sample) (x : Sample) :
    (pushBounded l x).getLast? = some x := by
  unfold pushBounded
  by_cases h : 86400 < (l ++ [x]).length
  · rw [if_pos h]
    have hk : (l ++ [x]).length - 86400 ≤ l.length := by
      simp only [List.length_append, List.length_cons, List.length_nil]
      omega
    rw [List.drop_append_of_le_length hk, List.getLast?_concat]
  · rw [if_neg h, List.getLast?_concat]

/-- C10: the sample stored by `add_reading` is not the full-precision
reading: pressure is rounded to 3 decimals, temperature to 2, depth to
2 (each therefore an integer multiple of 1/1000 resp. 1/100), while the
timestamp is stored unrounded.  Downstream analysis
(`calculate_leak_rate`) reads exactly this `readings` list, hence
operates on the rounded values. -/
theorem stored_sample_is_rounded (s : Session)
    (timestamp pressure_mbar temp_c dep : ℚ) :
    (add_reading s timestamp pressure_mbar temp_c dep).readings.getLast? =
        some ⟨timestamp, pyRound 3 pressure_mbar, pyRound 2 temp_c,
          pyRound 2 dep⟩ ∧
      (∃ a : ℤ, pyRound 3 pressure_mbar = (a : ℚ) / 1000) ∧
      (∃ b : ℤ, pyRound 2 temp_c = (b : ℚ) / 100) ∧
      (∃ c : ℤ, pyRound 2 dep = (c : ℚ) / 100) := by
  refine ⟨?_, ⟨rint (pressure_mbar * 10 ^ 3), ?_⟩,
    ⟨rint (temp_c * 10 ^ 2), ?_⟩, ⟨rint (dep * 10 ^ 2), ?_⟩⟩
  · unfold add_reading
    exact pushBounded_getLast _ _
  · unfold pyRound; norm_num
  · unfold pyRound; norm_num
  · unfold pyRound; norm_num
